import Mathlib

/-!
Verification development for the `bluetooth` package of BluePiCast
(`internal/bluetooth`, Go).  The definitions below are a shallow embedding of
the adapter code: the device record, the property-merge logic of
`Adapter.updateDevice`, the registry operations, the discovery state machine
and the command façade.  D-Bus interaction is modelled by passing the bus
responses explicitly and returning the list (or count) of bus method calls
the code would issue.
-/

namespace BluePiCast

/-- A D-Bus variant payload, distinguished exactly as the Go type assertions
(`val.Value().(string)`, `(bool)`, `(int16)`) distinguish them. -/
inductive DBusValue where
  | str (s : String)
  | boolVal (b : Bool)
  | int16Val (n : Int)
  | otherVal
deriving DecidableEq, Repr

/-- The `Device` struct of the Go code (zero value: empty strings, false, 0). -/
@[ext]
structure Device where
  Address : String
  Name : String
  Paired : Bool
  Connected : Bool
  Trusted : Bool
  RSSI : Int
  Icon : String
deriving DecidableEq, Repr

/-- `&Device{}`: the Go zero value a fresh registry entry starts from. -/
def Device.zero : Device :=
  { Address := "", Name := "", Paired := false, Connected := false,
    Trusted := false, RSSI := 0, Icon := "" }

/-- A property set as delivered by D-Bus: key/variant pairs.  The Go code
iterates a `map[string]dbus.Variant`; we model it as the list of its entries
in some order (a Go map holds each key once, the list is more general). -/
abbrev PropList := List (String × DBusValue)

/-- One iteration of the `for key, val := range props` switch in
`Adapter.updateDevice` (part_000 lines 314-345). -/
def mergeProp (d : Device) (p : String × DBusValue) : Device :=
  if p.1 = "Address" then
    match p.2 with
    | .str v => { d with Address := v }
    | _ => d
  else if p.1 = "Name" ∨ p.1 = "Alias" then
    match p.2 with
    | .str v => if v ≠ "" then { d with Name := v } else d
    | _ => d
  else if p.1 = "Paired" then
    match p.2 with
    | .boolVal v => { d with Paired := v }
    | _ => d
  else if p.1 = "Connected" then
    match p.2 with
    | .boolVal v => { d with Connected := v }
    | _ => d
  else if p.1 = "Trusted" then
    match p.2 with
    | .boolVal v => { d with Trusted := v }
    | _ => d
  else if p.1 = "RSSI" then
    match p.2 with
    | .int16Val v => { d with RSSI := v }
    | _ => d
  else if p.1 = "Icon" then
    match p.2 with
    | .str v => { d with Icon := v }
    | _ => d
  else d

/-- The whole merge loop of `Adapter.updateDevice`. -/
def applyProps (d : Device) (props : PropList) : Device :=
  props.foldl mergeProp d

/-- The effect an entry has on the `Address` field, if any. -/
def extAddress (p : String × DBusValue) : Option String :=
  if p.1 = "Address" then
    match p.2 with
    | .str v => some v
    | _ => none
  else none

/-- The effect an entry has on the `Name` field, if any (keys `Name` and
`Alias`, non-empty strings only). -/
def extName (p : String × DBusValue) : Option String :=
  if p.1 = "Name" ∨ p.1 = "Alias" then
    match p.2 with
    | .str v => if v ≠ "" then some v else none
    | _ => none
  else none

/-- The effect an entry has on the `Paired` field, if any. -/
def extPaired (p : String × DBusValue) : Option Bool :=
  if p.1 = "Paired" then
    match p.2 with
    | .boolVal v => some v
    | _ => none
  else none

/-- The effect an entry has on the `Connected` field, if any. -/
def extConnected (p : String × DBusValue) : Option Bool :=
  if p.1 = "Connected" then
    match p.2 with
    | .boolVal v => some v
    | _ => none
  else none

/-- The effect an entry has on the `Trusted` field, if any. -/
def extTrusted (p : String × DBusValue) : Option Bool :=
  if p.1 = "Trusted" then
    match p.2 with
    | .boolVal v => some v
    | _ => none
  else none

/-- The effect an entry has on the `RSSI` field, if any. -/
def extRSSI (p : String × DBusValue) : Option Int :=
  if p.1 = "RSSI" then
    match p.2 with
    | .int16Val v => some v
    | _ => none
  else none

/-- The effect an entry has on the `Icon` field, if any. -/
def extIcon (p : String × DBusValue) : Option String :=
  if p.1 = "Icon" then
    match p.2 with
    | .str v => some v
    | _ => none
  else none

/-- Last effective value a property list carries for one field
(`none` if the list never touches the field). -/
def lastVal (ext : String × DBusValue → Option α) (props : PropList) : Option α :=
  props.foldl (fun acc p => match ext p with | some v => some v | none => acc) none

theorem lastVal_foldl_acc (ext : String × DBusValue → Option α) (props : PropList)
    (acc : Option α) :
    props.foldl (fun acc p => match ext p with | some v => some v | none => acc) acc
      = match lastVal ext props with
        | some v => some v
        | none => acc := by
  induction props generalizing acc with
  | nil => simp [lastVal]
  | cons p props ih =>
    simp only [List.foldl_cons, lastVal]
    rw [ih]
    conv_rhs => rw [ih]
    cases h : ext p <;>
      cases hl : props.foldl
        (fun acc p => match ext p with | some v => some v | none => acc) none <;>
      simp [lastVal, hl] at ih ⊢ <;> simp [ih]

theorem lastVal_cons (ext : String × DBusValue → Option α) (p : String × DBusValue)
    (props : PropList) :
    lastVal ext (p :: props)
      = match lastVal ext props with
        | some v => some v
        | none => ext p := by
  show List.foldl _ _ props = _
  rw [lastVal_foldl_acc]
  cases lastVal ext props <;> cases h : ext p <;> simp [h]

theorem lastVal_eq_none (ext : String × DBusValue → Option α) (props : PropList)
    (h : ∀ p ∈ props, ext p = none) : lastVal ext props = none := by
  induction props with
  | nil => rfl
  | cons p props ih =>
    rw [lastVal_cons]
    rw [ih fun q hq => h q (List.mem_cons_of_mem p hq), h p (List.mem_cons_self p props)]

theorem lastVal_some_mem (ext : String × DBusValue → Option α) (props : PropList)
    (v : α) (h : lastVal ext props = some v) : ∃ p ∈ props, ext p = some v := by
  induction props with
  | nil => simp [lastVal] at h
  | cons p props ih =>
    rw [lastVal_cons] at h
    cases hl : lastVal ext props with
    | some w =>
      rw [hl] at h
      obtain ⟨q, hq, hqv⟩ := ih (hl.trans (by simpa using h))
      exact ⟨q, List.mem_cons_of_mem p hq, hqv⟩
    | none =>
      rw [hl] at h
      exact ⟨p, List.mem_cons_self p props, h⟩

theorem mergeProp_Address (d : Device) (p : String × DBusValue) :
    (mergeProp d p).Address = (extAddress p).getD d.Address := by
  unfold mergeProp extAddress
  split_ifs <;> cases p.2 <;> simp_all <;> split_ifs <;> simp_all

theorem mergeProp_Name (d : Device) (p : String × DBusValue) :
    (mergeProp d p).Name = (extName p).getD d.Name := by
  unfold mergeProp extName
  split_ifs <;> cases p.2 <;> simp_all <;> split_ifs <;> simp_all

theorem mergeProp_Paired (d : Device) (p : String × DBusValue) :
    (mergeProp d p).Paired = (extPaired p).getD d.Paired := by
  unfold mergeProp extPaired
  split_ifs <;> cases p.2 <;> simp_all <;> split_ifs <;> simp_all

theorem mergeProp_Connected (d : Device) (p : String × DBusValue) :
    (mergeProp d p).Connected = (extConnected p).getD d.Connected := by
  unfold mergeProp extConnected
  split_ifs <;> cases p.2 <;> simp_all <;> split_ifs <;> simp_all

theorem mergeProp_Trusted (d : Device) (p : String × DBusValue) :
    (mergeProp d p).Trusted = (extTrusted p).getD d.Trusted := by
  unfold mergeProp extTrusted
  split_ifs <;> cases p.2 <;> simp_all <;> split_ifs <;> simp_all

theorem mergeProp_RSSI (d : Device) (p : String × DBusValue) :
    (mergeProp d p).RSSI = (extRSSI p).getD d.RSSI := by
  unfold mergeProp extRSSI
  split_ifs <;> cases p.2 <;> simp_all <;> split_ifs <;> simp_all

theorem mergeProp_Icon (d : Device) (p : String × DBusValue) :
    (mergeProp d p).Icon = (extIcon p).getD d.Icon := by
  unfold mergeProp extIcon
  split_ifs <;> cases p.2 <;> simp_all <;> split_ifs <;> simp_all

theorem getD_getD (o : Option α) (a : α) : o.getD (o.getD a) = o.getD a := by
  cases o <;> rfl

theorem applyProps_Address (d : Device) (props : PropList) :
    (applyProps d props).Address = (lastVal extAddress props).getD d.Address := by
  induction props generalizing d with
  | nil => rfl
  | cons p props ih =>
    show (applyProps (mergeProp d p) props).Address = _
    rw [ih, lastVal_cons, mergeProp_Address]
    cases lastVal extAddress props <;> cases h : extAddress p <;> simp [h]

theorem applyProps_Name (d : Device) (props : PropList) :
    (applyProps d props).Name = (lastVal extName props).getD d.Name := by
  induction props generalizing d with
  | nil => rfl
  | cons p props ih =>
    show (applyProps (mergeProp d p) props).Name = _
    rw [ih, lastVal_cons, mergeProp_Name]
    cases lastVal extName props <;> cases h : extName p <;> simp [h]

theorem applyProps_Paired (d : Device) (props : PropList) :
    (applyProps d props).Paired = (lastVal extPaired props).getD d.Paired := by
  induction props generalizing d with
  | nil => rfl
  | cons p props ih =>
    show (applyProps (mergeProp d p) props).Paired = _
    rw [ih, lastVal_cons, mergeProp_Paired]
    cases lastVal extPaired props <;> cases h : extPaired p <;> simp [h]

theorem applyProps_Connected (d : Device) (props : PropList) :
    (applyProps d props).Connected = (lastVal extConnected props).getD d.Connected := by
  induction props generalizing d with
  | nil => rfl
  | cons p props ih =>
    show (applyProps (mergeProp d p) props).Connected = _
    rw [ih, lastVal_cons, mergeProp_Connected]
    cases lastVal extConnected props <;> cases h : extConnected p <;> simp [h]

theorem applyProps_Trusted (d : Device) (props : PropList) :
    (applyProps d props).Trusted = (lastVal extTrusted props).getD d.Trusted := by
  induction props generalizing d with
  | nil => rfl
  | cons p props ih =>
    show (applyProps (mergeProp d p) props).Trusted = _
    rw [ih, lastVal_cons, mergeProp_Trusted]
    cases lastVal extTrusted props <;> cases h : extTrusted p <;> simp [h]

theorem applyProps_RSSI (d : Device) (props : PropList) :
    (applyProps d props).RSSI = (lastVal extRSSI props).getD d.RSSI := by
  induction props generalizing d with
  | nil => rfl
  | cons p props ih =>
    show (applyProps (mergeProp d p) props).RSSI = _
    rw [ih, lastVal_cons, mergeProp_RSSI]
    cases lastVal extRSSI props <;> cases h : extRSSI p <;> simp [h]

theorem applyProps_Icon (d : Device) (props : PropList) :
    (applyProps d props).Icon = (lastVal extIcon props).getD d.Icon := by
  induction props generalizing d with
  | nil => rfl
  | cons p props ih =>
    show (applyProps (mergeProp d p) props).Icon = _
    rw [ih, lastVal_cons, mergeProp_Icon]
    cases lastVal extIcon props <;> cases h : extIcon p <;> simp [h]

theorem applyProps_idem (d : Device) (props : PropList) :
    applyProps (applyProps d props) props = applyProps d props := by
  apply Device.ext <;>
    simp [applyProps_Address, applyProps_Name, applyProps_Paired,
      applyProps_Connected, applyProps_Trusted, applyProps_RSSI,
      applyProps_Icon, getD_getD]

/-- `strings.HasPrefix(s, pre)` of the Go standard library, on the
character lists of the two strings. -/
def hasPrefixStr (s pre : String) : Bool :=
  pre.data.isPrefixOf s.data

/-- The registry map `devices map[string]*Device`, keyed by object path.
An association list with unique keys models the Go map; the value model
stores the `Device` structs themselves (aliasing through the stored
pointers is treated separately in the `Ptr` model below). -/
abbrev Registry := AList (fun _ : String => Device)

/-- The fields of `Adapter` the synchronization engine reads and writes:
the managed adapter's object path, the device registry and the discovery
flag.  The D-Bus connection, mutex and callback function pointers are
modelled by explicit arguments/results of the operations instead. -/
structure AdapterState where
  adapterPath : String
  devices : Registry
  scanning : Bool
deriving DecidableEq

/-- Result of `Adapter.updateDevice`: the new state, whether the
registry-changed callback is invoked (`go a.onChange(...)` when a handler is
registered) and whether the connection-edge callback is invoked
(`justConnected` and a handler is registered). -/
structure UpdateOutcome where
  state : AdapterState
  onChangeFired : Bool
  onConnectFired : Bool
deriving DecidableEq

/-- `Adapter.updateDevice` (part_000 lines 297-364): ignore paths outside
the adapter's `dev_` subtree, otherwise look the entry up (creating the
zero value if absent), remember the previous `Connected` flag, merge the
property set, store the result and report which callbacks fire. -/
def updateDevice (a : AdapterState) (path : String) (props : PropList) :
    UpdateOutcome :=
  if !hasPrefixStr path (a.adapterPath ++ "/dev_") then
    { state := a, onChangeFired := false, onConnectFired := false }
  else
    let device := (a.devices.lookup path).getD Device.zero
    let wasConnected := device.Connected
    let merged := applyProps device props
    let justConnected := !wasConnected && merged.Connected
    { state := { a with devices := a.devices.insert path merged },
      onChangeFired := true,
      onConnectFired := justConnected }

/-- Result of `Adapter.removeDevice`: new state plus whether the
registry-changed callback is invoked. -/
structure RemoveOutcome where
  state : AdapterState
  onChangeFired : Bool
deriving DecidableEq

/-- `Adapter.removeDevice` (part_000 lines 366-379): delete the entry if it
exists; the registry-changed callback fires only if it existed. -/
def removeDevice (a : AdapterState) (path : String) : RemoveOutcome :=
  let present := (a.devices.lookup path).isSome
  { state := if present then { a with devices := a.devices.erase path } else a,
    onChangeFired := present }

/-- `Adapter.GetDevices` (part_000 lines 382-391): list the registry's
device records. -/
def GetDevices (a : AdapterState) : List Device :=
  a.devices.entries.map fun e => e.2

/-- `Adapter.GetPairedDevices` (part_000 lines 394-405): only paired or
connected records. -/
def GetPairedDevices (a : AdapterState) : List Device :=
  (a.devices.entries.map fun e => e.2).filter fun d => d.Paired || d.Connected

/-- `Adapter.IsScanning`. -/
def IsScanning (a : AdapterState) : Bool :=
  a.scanning

/-- An error returned by a D-Bus method call: either a `dbus.Error` carrying
a D-Bus error name (what `errors.As(call.Err, &dbusErr)` extracts), or some
other transport error. -/
inductive BusErr where
  | dbusErr (name message : String)
  | otherErr (message : String)
deriving DecidableEq, Repr

/-- Outcome of one synchronous bus call, supplied by the environment. -/
abbrev BusResult (α : Type) := Except BusErr α

/-- A bus method call issued by the adapter, identified by target object
path and method name. -/
structure BusCall where
  target : String
  method : String
deriving DecidableEq, Repr

/-- An error a façade command returns to its caller. -/
inductive CmdErr where
  | deviceNotFound (address : String)
  | busFailure (op : String) (e : BusErr)
deriving DecidableEq, Repr

/-- Models Go `strings.ReplaceAll(address, ":", "_")`: with a one-character
pattern and replacement this is the character-wise substitution. -/
def replaceColons (address : String) : String :=
  ⟨address.data.map fun c => if c = ':' then '_' else c⟩

/-- `Adapter.getDevicePath` (part_000 lines 661-665): a pure string
construction `adapterPath + "/" + "dev_" + address-with-underscores`.
It never consults the registry. -/
def getDevicePath (a : AdapterState) (address : String) : String :=
  let devAddr := "dev_" ++ replaceColons address
  a.adapterPath ++ "/" ++ devAddr

/-- `Adapter.refreshDeviceProperties` (part_000 lines 508-522): issue a
`GetAll` call for the device; on success feed the full property set through
`updateDevice`, on failure only log.  Returns the new state and the bus
calls issued. -/
def refreshDeviceProperties (a : AdapterState) (devicePath : String)
    (getAllRes : BusResult PropList) : AdapterState × List BusCall :=
  match getAllRes with
  | .error _ => (a, [⟨devicePath, "GetAll"⟩])
  | .ok props => ((updateDevice a devicePath props).state, [⟨devicePath, "GetAll"⟩])

/-- Outcome of a façade command: new state, error returned to the caller
(`none` = Go `nil`), and the bus calls issued during the command. -/
structure CmdOutcome where
  state : AdapterState
  result : Option CmdErr
  calls : List BusCall
deriving DecidableEq

/-- `Adapter.Trust` (part_000 lines 524-546): build the device path, take
the (dead, see `getDevicePath_ne_empty`) not-found branch if it is empty,
issue the `Set Trusted=true` call, then refresh the device's properties. -/
def Trust (a : AdapterState) (address : String) (setRes : BusResult Unit)
    (getAllRes : BusResult PropList) : CmdOutcome :=
  let devicePath := getDevicePath a address
  if devicePath = "" then
    { state := a, result := some (.deviceNotFound address), calls := [] }
  else
    match setRes with
    | .error e =>
      { state := a, result := some (.busFailure "trust" e),
        calls := [⟨devicePath, "Set"⟩] }
    | .ok _ =>
      let r := refreshDeviceProperties a devicePath getAllRes
      { state := r.1, result := none, calls := ⟨devicePath, "Set"⟩ :: r.2 }

/-- `Adapter.Pair` (part_000 lines 548-570): same shape with the device
`Pair` method. -/
def Pair (a : AdapterState) (address : String) (pairRes : BusResult Unit)
    (getAllRes : BusResult PropList) : CmdOutcome :=
  let devicePath := getDevicePath a address
  if devicePath = "" then
    { state := a, result := some (.deviceNotFound address), calls := [] }
  else
    match pairRes with
    | .error e =>
      { state := a, result := some (.busFailure "pair" e),
        calls := [⟨devicePath, "Pair"⟩] }
    | .ok _ =>
      let r := refreshDeviceProperties a devicePath getAllRes
      { state := r.1, result := none, calls := ⟨devicePath, "Pair"⟩ :: r.2 }

/-- `Adapter.Disconnect` (part_000 lines 602-624). -/
def Disconnect (a : AdapterState) (address : String)
    (disconnectRes : BusResult Unit) (getAllRes : BusResult PropList) :
    CmdOutcome :=
  let devicePath := getDevicePath a address
  if devicePath = "" then
    { state := a, result := some (.deviceNotFound address), calls := [] }
  else
    match disconnectRes with
    | .error e =>
      { state := a, result := some (.busFailure "disconnect" e),
        calls := [⟨devicePath, "Disconnect"⟩] }
    | .ok _ =>
      let r := refreshDeviceProperties a devicePath getAllRes
      { state := r.1, result := none, calls := ⟨devicePath, "Disconnect"⟩ :: r.2 }

/-- `Adapter.Connect` (part_000 lines 572-600): trust the device first
(a failed trust is only logged), then issue the device `Connect` call and
refresh. -/
def Connect (a : AdapterState) (address : String)
    (trustSetRes : BusResult Unit) (trustGetAllRes : BusResult PropList)
    (connectRes : BusResult Unit) (getAllRes : BusResult PropList) :
    CmdOutcome :=
  let devicePath := getDevicePath a address
  if devicePath = "" then
    { state := a, result := some (.deviceNotFound address), calls := [] }
  else
    let trustOut := Trust a address trustSetRes trustGetAllRes
    match connectRes with
    | .error e =>
      { state := trustOut.state, result := some (.busFailure "connect" e),
        calls := trustOut.calls ++ [⟨devicePath, "Connect"⟩] }
    | .ok _ =>
      let r := refreshDeviceProperties trustOut.state devicePath getAllRes
      { state := r.1, result := none,
        calls := trustOut.calls ++ ⟨devicePath, "Connect"⟩ :: r.2 }

/-- Outcome of the `Remove` command, which additionally reports whether the
registry-changed callback fires. -/
structure RemoveCmdOutcome where
  state : AdapterState
  result : Option CmdErr
  calls : List BusCall
  onChangeFired : Bool
deriving DecidableEq

/-- `Adapter.Remove` (part_000 lines 626-659): adapter-level `RemoveDevice`
call; on success delete the registry entry in the command itself and fire
the registry-changed callback only if the entry was still present. -/
def Remove (a : AdapterState) (address : String) (removeRes : BusResult Unit) :
    RemoveCmdOutcome :=
  let devicePath := getDevicePath a address
  if devicePath = "" then
    { state := a, result := some (.deviceNotFound address), calls := [],
      onChangeFired := false }
  else
    match removeRes with
    | .error e =>
      { state := a, result := some (.busFailure "remove" e),
        calls := [⟨a.adapterPath, "RemoveDevice"⟩], onChangeFired := false }
    | .ok _ =>
      let present := (a.devices.lookup devicePath).isSome
      { state :=
          if present then { a with devices := a.devices.erase devicePath } else a,
        result := none,
        calls := [⟨a.adapterPath, "RemoveDevice"⟩],
        onChangeFired := present }

/-- `Adapter.loadExistingDevices` (part_000 lines 492-506): on a successful
`GetManagedObjects` reply, apply the `org.bluez.Device1` property set of
every object exposing that interface; on error return silently.  Each
managed object is given as its path together with its device-interface
property set, if it exposes one. -/
def loadExistingDevices (a : AdapterState)
    (managedRes : BusResult (List (String × Option PropList))) : AdapterState :=
  match managedRes with
  | .error _ => a
  | .ok objects =>
    objects.foldl
      (fun st obj =>
        match obj.2 with
        | some props => (updateDevice st obj.1 props).state
        | none => st)
      a

/-- Outcome of a discovery operation: new state, error returned, and how
many `StartDiscovery`/`StopDiscovery` bus method calls were issued. -/
structure DiscoveryOutcome where
  state : AdapterState
  result : Option CmdErr
  discoveryCalls : Nat
deriving DecidableEq

/-- `Adapter.StartDiscovery` (part_000 lines 407-446): no-op when already
scanning; otherwise set the flag, re-assert power (`ensurePoweredOn`,
abstracted by its result `powerRes`), re-run the bulk load, then issue the
`StartDiscovery` bus call, reverting the flag on any failure. -/
def StartDiscovery (a : AdapterState) (powerRes : BusResult Unit)
    (managedRes : BusResult (List (String × Option PropList)))
    (startRes : BusResult Unit) : DiscoveryOutcome :=
  if a.scanning then
    { state := a, result := none, discoveryCalls := 0 }
  else
    let a1 := { a with scanning := true }
    match powerRes with
    | .error e =>
      { state := { a1 with scanning := false },
        result := some (.busFailure "powerOn" e), discoveryCalls := 0 }
    | .ok _ =>
      let a2 := loadExistingDevices a1 managedRes
      match startRes with
      | .error e =>
        { state := { a2 with scanning := false },
          result := some (.busFailure "startDiscovery" e), discoveryCalls := 1 }
      | .ok _ => { state := a2, result := none, discoveryCalls := 1 }

/-- `Adapter.StopDiscovery` (part_000 lines 448-483): no-op when idle;
otherwise issue the `StopDiscovery` bus call and clear the flag regardless
of its outcome; `org.bluez.Error.Failed` and `org.bluez.Error.NotReady`
replies are treated as success. -/
def StopDiscovery (a : AdapterState) (stopRes : BusResult Unit) :
    DiscoveryOutcome :=
  if !a.scanning then
    { state := a, result := none, discoveryCalls := 0 }
  else
    let a1 := { a with scanning := false }
    match stopRes with
    | .ok _ => { state := a1, result := none, discoveryCalls := 1 }
    | .error e =>
      match e with
      | .dbusErr name _ =>
        if name = "org.bluez.Error.Failed" || name = "org.bluez.Error.NotReady" then
          { state := a1, result := none, discoveryCalls := 1 }
        else
          { state := a1, result := some (.busFailure "stopDiscovery" e),
            discoveryCalls := 1 }
      | .otherErr _ =>
        { state := a1, result := some (.busFailure "stopDiscovery" e),
          discoveryCalls := 1 }

/-- A well-formed inbound D-Bus notification, after the dynamic-type checks
`Adapter.handleSignal` performs on the signal body (malformed bodies are
dropped before reaching the registry and are not modelled). -/
inductive DBusSignal where
  | interfacesAdded (path : String) (ifaces : List (String × PropList))
  | interfacesRemoved (path : String)
  | propsChanged (iface : String) (path : String) (props : PropList)
deriving DecidableEq

/-- `Adapter.handleSignal` (part_000 lines 258-295): object-added applies
the `org.bluez.Device1` property set if present, object-removed removes the
path, property-changed applies the set only for the device interface. -/
def handleSignal (a : AdapterState) (s : DBusSignal) : AdapterState :=
  match s with
  | .interfacesAdded path ifaces =>
    match ifaces.lookup "org.bluez.Device1" with
    | some props => (updateDevice a path props).state
    | none => a
  | .interfacesRemoved path => (removeDevice a path).state
  | .propsChanged iface path props =>
    if iface = "org.bluez.Device1" then (updateDevice a path props).state else a

/-- Every key of the registry lies in the managed adapter's device
subtree. -/
def RegistryInvariant (a : AdapterState) : Prop :=
  ∀ p ∈ a.devices.keys, hasPrefixStr p (a.adapterPath ++ "/dev_") = true

/-!
Pointer-level model of the registry.  The Go map is
`devices map[string]*Device`: the map stores pointers, `updateDevice`
mutates the pointed-to struct in place, and `GetDevices` copies the slice
of pointers but not the structs.  To settle the aliasing claim we make the
heap explicit: paths map to pointers (`Nat` addresses) and pointers map to
the current contents of the struct. -/

/-- Heap-explicit registry state: the `devices` map (path to pointer), the
heap (pointer to struct contents) and an allocation counter. -/
structure PtrRegistry where
  adapterPath : String
  devices : AList (fun _ : String => Nat)
  heap : AList (fun _ : Nat => Device)
  nextPtr : Nat
deriving DecidableEq

/-- Reading a `*Device` returned to a caller: dereference the pointer in
the current heap. -/
def derefDevice (h : PtrRegistry) (ptr : Nat) : Option Device :=
  h.heap.lookup ptr

/-- `Adapter.updateDevice` at the pointer level: an existing entry's struct
is mutated in place through the stored pointer (`device.Address = v`, ...);
a missing entry allocates `&Device{}`, stores the pointer in the map, and
then mutates through it. -/
def ptrUpdateDevice (h : PtrRegistry) (path : String) (props : PropList) :
    PtrRegistry :=
  if !hasPrefixStr path (h.adapterPath ++ "/dev_") then h
  else
    match h.devices.lookup path with
    | some ptr =>
      let device := (h.heap.lookup ptr).getD Device.zero
      { h with heap := h.heap.insert ptr (applyProps device props) }
    | none =>
      let ptr := h.nextPtr
      { h with
        devices := h.devices.insert path ptr,
        heap := h.heap.insert ptr (applyProps Device.zero props),
        nextPtr := h.nextPtr + 1 }

/-- `Adapter.GetDevices` at the pointer level: a fresh slice is allocated,
but it is filled with the pointers stored in the map, not with copies of
the structs. -/
def ptrGetDevices (h : PtrRegistry) : List Nat :=
  h.devices.entries.map fun e => e.2

instance (a : AdapterState) : Decidable (RegistryInvariant a) := by
  unfold RegistryInvariant; infer_instance

theorem updateDevice_of_not_hasPrefix {a : AdapterState} {path : String}
    (props : PropList) (h : hasPrefixStr path (a.adapterPath ++ "/dev_") = false) :
    updateDevice a path props
      = { state := a, onChangeFired := false, onConnectFired := false } := by
  unfold updateDevice
  simp [h]

theorem updateDevice_of_hasPrefix {a : AdapterState} {path : String}
    (props : PropList) (h : hasPrefixStr path (a.adapterPath ++ "/dev_") = true) :
    updateDevice a path props
      = { state :=
            { a with
              devices := a.devices.insert path
                (applyProps ((a.devices.lookup path).getD Device.zero) props) },
          onChangeFired := true,
          onConnectFired :=
            !((a.devices.lookup path).getD Device.zero).Connected
              && (applyProps ((a.devices.lookup path).getD Device.zero) props).Connected } := by
  unfold updateDevice
  simp [h]

theorem mem_GetDevices (a : AdapterState) (d : Device) :
    d ∈ GetDevices a ↔ ∃ p, a.devices.lookup p = some d := by
  unfold GetDevices
  simp only [List.mem_map]
  constructor
  · rintro ⟨e, he, rfl⟩
    refine ⟨e.1, ?_⟩
    have h2 : e.2 ∈ a.devices.lookup e.1 :=
      AList.mem_lookup_iff.2 (by cases e; simpa using he)
    simpa [Option.mem_def] using h2
  · rintro ⟨p, hp⟩
    have h2 : d ∈ a.devices.lookup p := by simp [Option.mem_def, hp]
    exact ⟨⟨p, d⟩, AList.mem_lookup_iff.1 h2, rfl⟩

theorem updateDevice_preserves_invariant (a : AdapterState) (path : String)
    (props : PropList) (hInv : RegistryInvariant a) :
    RegistryInvariant (updateDevice a path props).state := by
  by_cases h : hasPrefixStr path (a.adapterPath ++ "/dev_") = true
  · rw [updateDevice_of_hasPrefix props h]
    intro p hp
    simp only [AList.keys_insert] at hp
    rcases List.mem_cons.1 hp with rfl | hp
    · exact h
    · exact hInv p (List.mem_of_mem_erase hp)
  · rw [updateDevice_of_not_hasPrefix props (Bool.not_eq_true _ ▸ h)]
    exact hInv

theorem removeDevice_preserves_invariant (a : AdapterState) (path : String)
    (hInv : RegistryInvariant a) :
    RegistryInvariant (removeDevice a path).state := by
  unfold removeDevice
  by_cases hpres : (a.devices.lookup path).isSome
  · simp only [hpres, if_true]
    intro p hp
    rw [AList.keys_erase] at hp
    exact hInv p (List.mem_of_mem_erase hp)
  · simp only [hpres, if_false]
    exact hInv

theorem loadExistingDevices_preserves_invariant (a : AdapterState)
    (managedRes : BusResult (List (String × Option PropList)))
    (hInv : RegistryInvariant a) :
    RegistryInvariant (loadExistingDevices a managedRes) := by
  cases managedRes with
  | error e => exact hInv
  | ok objects =>
    show RegistryInvariant (objects.foldl _ a)
    induction objects generalizing a with
    | nil => exact hInv
    | cons obj objects ih =>
      simp only [List.foldl_cons]
      cases h : obj.2 with
      | none => exact ih a hInv
      | some props =>
        exact ih _ (updateDevice_preserves_invariant a obj.1 props hInv)

theorem handleSignal_preserves_invariant (a : AdapterState) (s : DBusSignal)
    (hInv : RegistryInvariant a) :
    RegistryInvariant (handleSignal a s) := by
  cases s with
  | interfacesAdded path ifaces =>
    cases h : ifaces.lookup "org.bluez.Device1" with
    | none => simpa [handleSignal, h] using hInv
    | some props =>
      simpa [handleSignal, h] using updateDevice_preserves_invariant a path props hInv
  | interfacesRemoved path =>
    exact removeDevice_preserves_invariant a path hInv
  | propsChanged iface path props =>
    by_cases h : iface = "org.bluez.Device1"
    · simpa [handleSignal, h] using updateDevice_preserves_invariant a path props hInv
    · simpa [handleSignal, h] using hInv

theorem refreshDeviceProperties_preserves_invariant (a : AdapterState)
    (devicePath : String) (getAllRes : BusResult PropList)
    (hInv : RegistryInvariant a) :
    RegistryInvariant (refreshDeviceProperties a devicePath getAllRes).1 := by
  cases getAllRes with
  | error e => exact hInv
  | ok props => exact updateDevice_preserves_invariant a devicePath props hInv

theorem Remove_preserves_invariant (a : AdapterState) (address : String)
    (removeRes : BusResult Unit) (hInv : RegistryInvariant a) :
    RegistryInvariant (Remove a address removeRes).state := by
  unfold Remove
  by_cases h0 : getDevicePath a address = ""
  · simp only [h0, if_true]
    exact hInv
  · simp only [h0, if_false]
    cases removeRes with
    | error e => exact hInv
    | ok u =>
      by_cases hpres : (a.devices.lookup (getDevicePath a address)).isSome
      · simp only [hpres, if_true]
        intro p hp
        rw [AList.keys_erase] at hp
        exact hInv p (List.mem_of_mem_erase hp)
      · simp only [hpres, if_false]
        exact hInv

theorem getDevicePath_ne_empty (a : AdapterState) (address : String) :
    getDevicePath a address ≠ "" := by
  intro h
  have hd := congrArg String.data h
  simp only [getDevicePath, String.data_append] at hd
  simp [String] at hd

/-! Concrete sample data used by the witness theorems. -/

/-- Hardware address used in the spec's own scenarios. -/
def sampleAddress : String := "AA:BB:CC:DD:EE:FF"

/-- The object path BlueZ would assign to `sampleAddress` under `hci0`. -/
def samplePath : String := "/org/bluez/hci0/dev_AA_BB_CC_DD_EE_FF"

/-- A sample paired, not-connected device. -/
def sampleDevice : Device :=
  { Address := "AA:BB:CC:DD:EE:FF", Name := "Speaker", Paired := true,
    Connected := false, Trusted := false, RSSI := 0, Icon := "audio-card" }

/-- Adapter state with an empty registry. -/
def emptyState : AdapterState :=
  { adapterPath := "/org/bluez/hci0", devices := ∅, scanning := false }

/-- Adapter state knowing exactly `sampleDevice` at `samplePath`. -/
def sampleState : AdapterState :=
  { adapterPath := "/org/bluez/hci0",
    devices := AList.insert samplePath sampleDevice ∅,
    scanning := false }

theorem updateDevice_state_scanning (a : AdapterState) (path : String)
    (props : PropList) : (updateDevice a path props).state.scanning = a.scanning := by
  by_cases h : hasPrefixStr path (a.adapterPath ++ "/dev_") = true
  · rw [updateDevice_of_hasPrefix props h]
  · rw [updateDevice_of_not_hasPrefix props (Bool.not_eq_true _ ▸ h)]

theorem updateDevice_state_adapterPath (a : AdapterState) (path : String)
    (props : PropList) :
    (updateDevice a path props).state.adapterPath = a.adapterPath := by
  by_cases h : hasPrefixStr path (a.adapterPath ++ "/dev_") = true
  · rw [updateDevice_of_hasPrefix props h]
  · rw [updateDevice_of_not_hasPrefix props (Bool.not_eq_true _ ▸ h)]

theorem loadExistingDevices_scanning (a : AdapterState)
    (managedRes : BusResult (List (String × Option PropList))) :
    (loadExistingDevices a managedRes).scanning = a.scanning := by
  cases managedRes with
  | error e => rfl
  | ok objects =>
    show (objects.foldl _ a).scanning = _
    induction objects generalizing a with
    | nil => rfl
    | cons obj objects ih =>
      simp only [List.foldl_cons]
      cases h : obj.2 with
      | none => exact ih a
      | some props => rw [ih, updateDevice_state_scanning]

/-- C5: `updateDevice` is idempotent: merging the identical property set a
second time changes neither the merged device record nor the registry
state. -/
theorem C5_updateDevice_idempotent (a : AdapterState) (path : String)
    (props : PropList) :
    applyProps (applyProps ((a.devices.lookup path).getD Device.zero) props) props
        = applyProps ((a.devices.lookup path).getD Device.zero) props
    ∧ (updateDevice (updateDevice a path props).state path props).state
        = (updateDevice a path props).state := by
  refine ⟨applyProps_idem _ props, ?_⟩
  by_cases h : hasPrefixStr path (a.adapterPath ++ "/dev_") = true
  · rw [updateDevice_of_hasPrefix props h]
    simp [updateDevice, h, AList.lookup_insert, applyProps_idem, AList.insert_insert]
  · have h0 : hasPrefixStr path (a.adapterPath ++ "/dev_") = false :=
      Bool.not_eq_true _ ▸ h
    rw [updateDevice_of_not_hasPrefix props h0, updateDevice_of_not_hasPrefix props h0]

/-- C3: the connection-edge callback fires for a call exactly when the
stored device's `Connected` flag was false before the merge and true after
it; in particular an already-connected device never fires it, a merge that
leaves the device disconnected never fires it, and the pair of calls
`{Connected: false}` then `{Connected: true}` fires it exactly once, on the
second call. -/
theorem C3_connection_edge (a : AdapterState) (path : String) (props : PropList)
    (h : hasPrefixStr path (a.adapterPath ++ "/dev_") = true) :
    ((updateDevice a path props).onConnectFired
      = (!((a.devices.lookup path).getD Device.zero).Connected
          && (applyProps ((a.devices.lookup path).getD Device.zero) props).Connected))
    ∧ (((a.devices.lookup path).getD Device.zero).Connected = true →
        (updateDevice a path props).onConnectFired = false)
    ∧ ((applyProps ((a.devices.lookup path).getD Device.zero) props).Connected = false →
        (updateDevice a path props).onConnectFired = false)
    ∧ (((a.devices.lookup path).getD Device.zero).Connected = false →
        (applyProps ((a.devices.lookup path).getD Device.zero) props).Connected = true →
        (updateDevice a path props).onConnectFired = true)
    ∧ (updateDevice a path [("Connected", DBusValue.boolVal false)]).onConnectFired = false
    ∧ (updateDevice (updateDevice a path [("Connected", DBusValue.boolVal false)]).state
        path [("Connected", DBusValue.boolVal true)]).onConnectFired = true := by
  have hconn : ∀ (d : Device) (b : Bool),
      (applyProps d [("Connected", DBusValue.boolVal b)]).Connected = b := by
    intro d b
    rw [applyProps_Connected]
    rfl
  refine ⟨?_, ?_, ?_, ?_, ?_, ?_⟩
  · rw [updateDevice_of_hasPrefix props h]
  · intro hc
    rw [updateDevice_of_hasPrefix props h]
    simp [hc]
  · intro hc
    rw [updateDevice_of_hasPrefix props h]
    simp [hc]
  · intro hc1 hc2
    rw [updateDevice_of_hasPrefix props h]
    simp [hc1, hc2]
  · rw [updateDevice_of_hasPrefix _ h]
    simp [hconn]
  · rw [updateDevice_of_hasPrefix _ h]
    simp [updateDevice, h, AList.lookup_insert, hconn]

/-- C6: `removeDevice` on an absent path is a no-op and fires no
registry-changed callback; on a present path it deletes exactly that entry
(all other lookups unchanged) and fires the callback. -/
theorem C6_removal_safety (a : AdapterState) (path : String) :
    (a.devices.lookup path = none →
      removeDevice a path = { state := a, onChangeFired := false })
    ∧ ((a.devices.lookup path).isSome = true →
      (removeDevice a path).onChangeFired = true
      ∧ (removeDevice a path).state.devices.lookup path = none
      ∧ (∀ q, q ≠ path →
          (removeDevice a path).state.devices.lookup q = a.devices.lookup q)
      ∧ (removeDevice a path).state.adapterPath = a.adapterPath
      ∧ (removeDevice a path).state.scanning = a.scanning) := by
  constructor
  · intro h
    unfold removeDevice
    simp [h]
  · intro h
    unfold removeDevice
    refine ⟨by simp [h], by simp [h, AList.lookup_erase], ?_, by simp [h], by simp [h]⟩
    intro q hq
    simp [h, AList.lookup_erase_ne hq]

/-- Witness for C3 at the sample state: the sample device is disconnected,
a `{Connected: true}` merge fires the edge callback. -/
theorem C3_connection_edge_witness :
    hasPrefixStr samplePath (sampleState.adapterPath ++ "/dev_") = true
    ∧ (updateDevice sampleState samplePath
        [("Connected", DBusValue.boolVal true)]).onConnectFired = true := by
  refine ⟨by decide, ?_⟩
  have h := (C3_connection_edge sampleState samplePath
    [("Connected", DBusValue.boolVal true)] (by decide)).2.2.2.1
  exact h (by decide) (by decide)

/-- Witness for C6 at the sample state: removing an unknown path is a
no-op without callback; removing the known path fires the callback. -/
theorem C6_removal_safety_witness :
    removeDevice sampleState "/org/bluez/hci0/dev_00_00_00_00_00_00"
      = { state := sampleState, onChangeFired := false }
    ∧ (removeDevice sampleState samplePath).onChangeFired = true := by
  refine ⟨?_, ?_⟩
  · exact (C6_removal_safety sampleState "/org/bluez/hci0/dev_00_00_00_00_00_00").1
      (by decide)
  · exact ((C6_removal_safety sampleState samplePath).2 (by decide)).1

theorem applyProps_retains (ext : String × DBusValue → Option α)
    (props : PropList) (h : ∀ p ∈ props, ext p = none) :
    lastVal ext props = none :=
  lastVal_eq_none ext props h

/-- C9: a merge never clears an unreported field: every attribute whose
property key is absent from the set, or present only with a mismatched
payload type, keeps exactly its prior value; and an attribute that did
change was written from a reported, correctly typed entry of the set
(whose value it now carries). -/
theorem C9_partial_update_frame (d : Device) (props : PropList) :
    ((∀ p ∈ props, p.1 = "Address" → ∀ s, p.2 ≠ DBusValue.str s) →
      (applyProps d props).Address = d.Address)
    ∧ ((∀ p ∈ props, p.1 = "Name" ∨ p.1 = "Alias" → ∀ s, p.2 ≠ DBusValue.str s) →
      (applyProps d props).Name = d.Name)
    ∧ ((∀ p ∈ props, p.1 = "Paired" → ∀ b, p.2 ≠ DBusValue.boolVal b) →
      (applyProps d props).Paired = d.Paired)
    ∧ ((∀ p ∈ props, p.1 = "Connected" → ∀ b, p.2 ≠ DBusValue.boolVal b) →
      (applyProps d props).Connected = d.Connected)
    ∧ ((∀ p ∈ props, p.1 = "Trusted" → ∀ b, p.2 ≠ DBusValue.boolVal b) →
      (applyProps d props).Trusted = d.Trusted)
    ∧ ((∀ p ∈ props, p.1 = "RSSI" → ∀ n, p.2 ≠ DBusValue.int16Val n) →
      (applyProps d props).RSSI = d.RSSI)
    ∧ ((∀ p ∈ props, p.1 = "Icon" → ∀ s, p.2 ≠ DBusValue.str s) →
      (applyProps d props).Icon = d.Icon)
    ∧ ((applyProps d props).Address ≠ d.Address →
      ∃ s, ("Address", DBusValue.str s) ∈ props ∧ (applyProps d props).Address = s)
    ∧ ((applyProps d props).Name ≠ d.Name →
      ∃ s, s ≠ ""
        ∧ (("Name", DBusValue.str s) ∈ props ∨ ("Alias", DBusValue.str s) ∈ props)
        ∧ (applyProps d props).Name = s)
    ∧ ((applyProps d props).Paired ≠ d.Paired →
      ∃ b, ("Paired", DBusValue.boolVal b) ∈ props ∧ (applyProps d props).Paired = b)
    ∧ ((applyProps d props).Connected ≠ d.Connected →
      ∃ b, ("Connected", DBusValue.boolVal b) ∈ props
        ∧ (applyProps d props).Connected = b)
    ∧ ((applyProps d props).Trusted ≠ d.Trusted →
      ∃ b, ("Trusted", DBusValue.boolVal b) ∈ props
        ∧ (applyProps d props).Trusted = b)
    ∧ ((applyProps d props).RSSI ≠ d.RSSI →
      ∃ n, ("RSSI", DBusValue.int16Val n) ∈ props ∧ (applyProps d props).RSSI = n)
    ∧ ((applyProps d props).Icon ≠ d.Icon →
      ∃ s, ("Icon", DBusValue.str s) ∈ props ∧ (applyProps d props).Icon = s) := by
  refine ⟨?_, ?_, ?_, ?_, ?_, ?_, ?_, ?_, ?_, ?_, ?_, ?_, ?_, ?_⟩
  · intro h
    rw [applyProps_Address, applyProps_retains]
    · rfl
    · intro p hp
      unfold extAddress
      split_ifs with hk
      · cases hv : p.2 with
        | str s => exact absurd hv (h p hp hk s)
        | boolVal b => rfl
        | int16Val n => rfl
        | otherVal => rfl
      · rfl
  · intro h
    rw [applyProps_Name, applyProps_retains]
    · rfl
    · intro p hp
      unfold extName
      split_ifs with hk
      · cases hv : p.2 with
        | str s => exact absurd hv (h p hp hk s)
        | boolVal b => rfl
        | int16Val n => rfl
        | otherVal => rfl
      · rfl
  · intro h
    rw [applyProps_Paired, applyProps_retains]
    · rfl
    · intro p hp
      unfold extPaired
      split_ifs with hk
      · cases hv : p.2 with
        | str s => rfl
        | boolVal b => exact absurd hv (h p hp hk b)
        | int16Val n => rfl
        | otherVal => rfl
      · rfl
  · intro h
    rw [applyProps_Connected, applyProps_retains]
    · rfl
    · intro p hp
      unfold extConnected
      split_ifs with hk
      · cases hv : p.2 with
        | str s => rfl
        | boolVal b => exact absurd hv (h p hp hk b)
        | int16Val n => rfl
        | otherVal => rfl
      · rfl
  · intro h
    rw [applyProps_Trusted, applyProps_retains]
    · rfl
    · intro p hp
      unfold extTrusted
      split_ifs with hk
      · cases hv : p.2 with
        | str s => rfl
        | boolVal b => exact absurd hv (h p hp hk b)
        | int16Val n => rfl
        | otherVal => rfl
      · rfl
  · intro h
    rw [applyProps_RSSI, applyProps_retains]
    · rfl
    · intro p hp
      unfold extRSSI
      split_ifs with hk
      · cases hv : p.2 with
        | str s => rfl
        | boolVal b => rfl
        | int16Val n => exact absurd hv (h p hp hk n)
        | otherVal => rfl
      · rfl
  · intro h
    rw [applyProps_Icon, applyProps_retains]
    · rfl
    · intro p hp
      unfold extIcon
      split_ifs with hk
      · cases hv : p.2 with
        | str s => exact absurd hv (h p hp hk s)
        | boolVal b => rfl
        | int16Val n => rfl
        | otherVal => rfl
      · rfl
  · intro hne
    rw [applyProps_Address] at hne ⊢
    cases hl : lastVal extAddress props with
    | none => rw [hl] at hne; exact absurd rfl hne
    | some s =>
      obtain ⟨p, hp, hps⟩ := lastVal_some_mem _ _ _ hl
      obtain ⟨k, v⟩ := p
      unfold extAddress at hps
      dsimp only at hps
      split_ifs at hps with hk
      · cases v with
        | str w =>
          simp only [Option.some.injEq] at hps
          subst hps
          subst hk
          exact ⟨w, hp, rfl⟩
        | boolVal b => exact absurd hps (by simp)
        | int16Val n => exact absurd hps (by simp)
        | otherVal => exact absurd hps (by simp)
  · intro hne
    rw [applyProps_Name] at hne ⊢
    cases hl : lastVal extName props with
    | none => rw [hl] at hne; exact absurd rfl hne
    | some s =>
      obtain ⟨p, hp, hps⟩ := lastVal_some_mem _ _ _ hl
      obtain ⟨k, v⟩ := p
      unfold extName at hps
      dsimp only at hps
      split_ifs at hps with hk
      · cases v with
        | str w =>
          by_cases hw : w = ""
          · simp [hw] at hps
          · simp [hw] at hps
            subst hps
            rcases hk with rfl | rfl
            · exact ⟨w, hw, Or.inl hp, rfl⟩
            · exact ⟨w, hw, Or.inr hp, rfl⟩
        | boolVal b => exact absurd hps (by simp)
        | int16Val n => exact absurd hps (by simp)
        | otherVal => exact absurd hps (by simp)
  · intro hne
    rw [applyProps_Paired] at hne ⊢
    cases hl : lastVal extPaired props with
    | none => rw [hl] at hne; exact absurd rfl hne
    | some b =>
      obtain ⟨p, hp, hps⟩ := lastVal_some_mem _ _ _ hl
      obtain ⟨k, v⟩ := p
      unfold extPaired at hps
      dsimp only at hps
      split_ifs at hps with hk
      · cases v with
        | str w => exact absurd hps (by simp)
        | boolVal c =>
          simp only [Option.some.injEq] at hps
          subst hps
          subst hk
          exact ⟨c, hp, rfl⟩
        | int16Val n => exact absurd hps (by simp)
        | otherVal => exact absurd hps (by simp)
  · intro hne
    rw [applyProps_Connected] at hne ⊢
    cases hl : lastVal extConnected props with
    | none => rw [hl] at hne; exact absurd rfl hne
    | some b =>
      obtain ⟨p, hp, hps⟩ := lastVal_some_mem _ _ _ hl
      obtain ⟨k, v⟩ := p
      unfold extConnected at hps
      dsimp only at hps
      split_ifs at hps with hk
      · cases v with
        | str w => exact absurd hps (by simp)
        | boolVal c =>
          simp only [Option.some.injEq] at hps
          subst hps
          subst hk
          exact ⟨c, hp, rfl⟩
        | int16Val n => exact absurd hps (by simp)
        | otherVal => exact absurd hps (by simp)
  · intro hne
    rw [applyProps_Trusted] at hne ⊢
    cases hl : lastVal extTrusted props with
    | none => rw [hl] at hne; exact absurd rfl hne
    | some b =>
      obtain ⟨p, hp, hps⟩ := lastVal_some_mem _ _ _ hl
      obtain ⟨k, v⟩ := p
      unfold extTrusted at hps
      dsimp only at hps
      split_ifs at hps with hk
      · cases v with
        | str w => exact absurd hps (by simp)
        | boolVal c =>
          simp only [Option.some.injEq] at hps
          subst hps
          subst hk
          exact ⟨c, hp, rfl⟩
        | int16Val n => exact absurd hps (by simp)
        | otherVal => exact absurd hps (by simp)
  · intro hne
    rw [applyProps_RSSI] at hne ⊢
    cases hl : lastVal extRSSI props with
    | none => rw [hl] at hne; exact absurd rfl hne
    | some n =>
      obtain ⟨p, hp, hps⟩ := lastVal_some_mem _ _ _ hl
      obtain ⟨k, v⟩ := p
      unfold extRSSI at hps
      dsimp only at hps
      split_ifs at hps with hk
      · cases v with
        | str w => exact absurd hps (by simp)
        | boolVal c => exact absurd hps (by simp)
        | int16Val m =>
          simp only [Option.some.injEq] at hps
          subst hps
          subst hk
          exact ⟨m, hp, rfl⟩
        | otherVal => exact absurd hps (by simp)
  · intro hne
    rw [applyProps_Icon] at hne ⊢
    cases hl : lastVal extIcon props with
    | none => rw [hl] at hne; exact absurd rfl hne
    | some s =>
      obtain ⟨p, hp, hps⟩ := lastVal_some_mem _ _ _ hl
      obtain ⟨k, v⟩ := p
      unfold extIcon at hps
      dsimp only at hps
      split_ifs at hps with hk
      · cases v with
        | str w =>
          simp only [Option.some.injEq] at hps
          subst hps
          subst hk
          exact ⟨w, hp, rfl⟩
        | boolVal b => exact absurd hps (by simp)
        | int16Val n => exact absurd hps (by simp)
        | otherVal => exact absurd hps (by simp)

/-- Witness for C9 at a concrete merge: `{Connected: true}` together with a
mismatched-type `RSSI` entry leaves `Name`, `Paired` and `RSSI` of the
sample device untouched. -/
theorem C9_partial_update_frame_witness :
    (applyProps sampleDevice
        [("Connected", DBusValue.boolVal true), ("RSSI", DBusValue.str "oops")]).Name
      = sampleDevice.Name
    ∧ (applyProps sampleDevice
        [("Connected", DBusValue.boolVal true), ("RSSI", DBusValue.str "oops")]).RSSI
      = sampleDevice.RSSI := by
  have hName : ∀ p ∈ [("Connected", DBusValue.boolVal true),
      ("RSSI", DBusValue.str "oops")],
      p.1 = "Name" ∨ p.1 = "Alias" → ∀ s, p.2 ≠ DBusValue.str s := by
    intro p hp
    rcases List.mem_cons.1 hp with rfl | hp2
    · intro hk
      exact absurd hk (by decide)
    · rcases List.mem_cons.1 hp2 with rfl | hp3
      · intro hk
        exact absurd hk (by decide)
      · simp at hp3
  have hRSSI : ∀ p ∈ [("Connected", DBusValue.boolVal true),
      ("RSSI", DBusValue.str "oops")],
      p.1 = "RSSI" → ∀ n, p.2 ≠ DBusValue.int16Val n := by
    intro p hp
    rcases List.mem_cons.1 hp with rfl | hp2
    · intro hk
      exact absurd hk (by decide)
    · rcases List.mem_cons.1 hp2 with rfl | hp3
      · intro hk n h
        cases h
      · simp at hp3
  constructor
  · exact (C9_partial_update_frame sampleDevice
      [("Connected", DBusValue.boolVal true), ("RSSI", DBusValue.str "oops")]).2.1
      hName
  · exact (C9_partial_update_frame sampleDevice
      [("Connected", DBusValue.boolVal true), ("RSSI", DBusValue.str "oops")]).2.2.2.2.2.1
      hRSSI

/-- C10: every registry key lies under `adapterPath + "/dev_"`:
`updateDevice` on a path outside the managed subtree is a no-op firing no
callbacks, and the subtree invariant is preserved by `updateDevice`,
`removeDevice`, signal handling, the bulk load, the command-refresh path
and the `Remove` command. -/
theorem C10_registry_subtree :
    (∀ (a : AdapterState) (path : String) (props : PropList),
      hasPrefixStr path (a.adapterPath ++ "/dev_") = false →
      updateDevice a path props
        = { state := a, onChangeFired := false, onConnectFired := false })
    ∧ (∀ (a : AdapterState) (path : String) (props : PropList),
      RegistryInvariant a → RegistryInvariant (updateDevice a path props).state)
    ∧ (∀ (a : AdapterState) (path : String),
      RegistryInvariant a → RegistryInvariant (removeDevice a path).state)
    ∧ (∀ (a : AdapterState) (s : DBusSignal),
      RegistryInvariant a → RegistryInvariant (handleSignal a s))
    ∧ (∀ (a : AdapterState)
        (managedRes : BusResult (List (String × Option PropList))),
      RegistryInvariant a → RegistryInvariant (loadExistingDevices a managedRes))
    ∧ (∀ (a : AdapterState) (devicePath : String) (getAllRes : BusResult PropList),
      RegistryInvariant a →
      RegistryInvariant (refreshDeviceProperties a devicePath getAllRes).1)
    ∧ (∀ (a : AdapterState) (address : String) (removeRes : BusResult Unit),
      RegistryInvariant a → RegistryInvariant (Remove a address removeRes).state) :=
  ⟨fun _ _ props h => updateDevice_of_not_hasPrefix props h,
   updateDevice_preserves_invariant,
   removeDevice_preserves_invariant,
   handleSignal_preserves_invariant,
   loadExistingDevices_preserves_invariant,
   refreshDeviceProperties_preserves_invariant,
   Remove_preserves_invariant⟩

/-- Witness for C10: concrete instantiations of every conjunct at the
sample state, whose invariant is checked by evaluation. -/
theorem C10_registry_subtree_witness :
    (hasPrefixStr "/org/bluez/hci1/dev_11_22_33_44_55_66"
        (sampleState.adapterPath ++ "/dev_") = false
      ∧ updateDevice sampleState "/org/bluez/hci1/dev_11_22_33_44_55_66"
          [("Connected", DBusValue.boolVal true)]
        = { state := sampleState, onChangeFired := false, onConnectFired := false })
    ∧ RegistryInvariant sampleState
    ∧ RegistryInvariant
        (updateDevice sampleState samplePath [("RSSI", DBusValue.int16Val (-40))]).state
    ∧ RegistryInvariant (removeDevice sampleState samplePath).state
    ∧ RegistryInvariant (handleSignal sampleState (.interfacesRemoved samplePath))
    ∧ RegistryInvariant
        (loadExistingDevices sampleState
          (.ok [(samplePath, some [("Paired", DBusValue.boolVal true)])]))
    ∧ RegistryInvariant
        (refreshDeviceProperties sampleState samplePath
          (.ok [("Trusted", DBusValue.boolVal true)])).1
    ∧ RegistryInvariant (Remove sampleState sampleAddress (.ok ())).state := by
  refine ⟨⟨by decide, ?_⟩, by decide, ?_, ?_, ?_, ?_, ?_, ?_⟩
  · exact C10_registry_subtree.1 sampleState "/org/bluez/hci1/dev_11_22_33_44_55_66"
      [("Connected", DBusValue.boolVal true)] (by decide)
  · exact C10_registry_subtree.2.1 sampleState samplePath
      [("RSSI", DBusValue.int16Val (-40))] (by decide)
  · exact C10_registry_subtree.2.2.1 sampleState samplePath (by decide)
  · exact C10_registry_subtree.2.2.2.1 sampleState (.interfacesRemoved samplePath)
      (by decide)
  · exact C10_registry_subtree.2.2.2.2.1 sampleState
      (.ok [(samplePath, some [("Paired", DBusValue.boolVal true)])]) (by decide)
  · exact C10_registry_subtree.2.2.2.2.2.1 sampleState samplePath
      (.ok [("Trusted", DBusValue.boolVal true)]) (by decide)
  · exact C10_registry_subtree.2.2.2.2.2.2 sampleState sampleAddress (.ok ())
      (by decide)

/-- C7: starting discovery twice in a row (the second call while already
scanning) issues exactly one underlying `StartDiscovery` bus call, returns
success both times and leaves the session scanning; stopping while idle
returns success without a bus call; and a start attempt leaves the session
scanning exactly on bus-call success, reverting to idle with the error
surfaced otherwise. -/
theorem C7_discovery_idempotence :
    (∀ (a : AdapterState)
        (managedRes : BusResult (List (String × Option PropList)))
        (p2 : BusResult Unit)
        (m2 : BusResult (List (String × Option PropList)))
        (s2 : BusResult Unit),
      a.scanning = false →
      (StartDiscovery a (.ok ()) managedRes (.ok ())).result = none
      ∧ (StartDiscovery a (.ok ()) managedRes (.ok ())).discoveryCalls = 1
      ∧ IsScanning (StartDiscovery a (.ok ()) managedRes (.ok ())).state = true
      ∧ StartDiscovery (StartDiscovery a (.ok ()) managedRes (.ok ())).state p2 m2 s2
          = { state := (StartDiscovery a (.ok ()) managedRes (.ok ())).state,
              result := none, discoveryCalls := 0 })
    ∧ (∀ (a : AdapterState) (stopRes : BusResult Unit),
      a.scanning = false →
      StopDiscovery a stopRes = { state := a, result := none, discoveryCalls := 0 }
      ∧ IsScanning a = false)
    ∧ (∀ (a : AdapterState)
        (managedRes : BusResult (List (String × Option PropList)))
        (e : BusErr),
      a.scanning = false →
      (StartDiscovery a (.ok ()) managedRes (.error e)).state.scanning = false
      ∧ (StartDiscovery a (.ok ()) managedRes (.error e)).result
          = some (.busFailure "startDiscovery" e))
    ∧ (∀ (a : AdapterState) (e : BusErr)
        (managedRes : BusResult (List (String × Option PropList)))
        (startRes : BusResult Unit),
      a.scanning = false →
      (StartDiscovery a (.error e) managedRes startRes).state.scanning = false
      ∧ (StartDiscovery a (.error e) managedRes startRes).result
          = some (.busFailure "powerOn" e)) := by
  have hbusy : ∀ (a : AdapterState), a.scanning = true →
      ∀ (p2 : BusResult Unit)
        (m2 : BusResult (List (String × Option PropList)))
        (s2 : BusResult Unit),
      StartDiscovery a p2 m2 s2
        = { state := a, result := none, discoveryCalls := 0 } := by
    intro a h p2 m2 s2
    unfold StartDiscovery
    simp [h]
  have hscan : ∀ (a : AdapterState)
      (managedRes : BusResult (List (String × Option PropList))),
      a.scanning = false →
      (StartDiscovery a (.ok ()) managedRes (.ok ())).state.scanning = true := by
    intro a managedRes h
    unfold StartDiscovery
    simp only [h, Bool.false_eq_true, if_false]
    rw [loadExistingDevices_scanning]
  refine ⟨?_, ?_, ?_, ?_⟩
  · intro a managedRes p2 m2 s2 h
    refine ⟨?_, ?_, ?_, ?_⟩
    · unfold StartDiscovery
      simp [h]
    · unfold StartDiscovery
      simp [h]
    · exact hscan a managedRes h
    · exact hbusy _ (hscan a managedRes h) p2 m2 s2
  · intro a stopRes h
    constructor
    · unfold StopDiscovery
      simp [h]
    · exact h
  · intro a managedRes e h
    constructor
    · unfold StartDiscovery
      simp [h]
    · unfold StartDiscovery
      simp [h]
  · intro a e managedRes startRes h
    constructor
    · unfold StartDiscovery
      simp [h]
    · unfold StartDiscovery
      simp [h]

/-- Witness for C7 at the sample state (idle): a double start issues one
bus call and scans; a stop while idle is a silent no-op. -/
theorem C7_discovery_idempotence_witness :
    ((StartDiscovery emptyState (.ok ()) (.ok []) (.ok ())).discoveryCalls = 1
      ∧ StartDiscovery (StartDiscovery emptyState (.ok ()) (.ok []) (.ok ())).state
          (.ok ()) (.ok []) (.ok ())
        = { state := (StartDiscovery emptyState (.ok ()) (.ok []) (.ok ())).state,
            result := none, discoveryCalls := 0 })
    ∧ StopDiscovery emptyState (.ok ())
        = { state := emptyState, result := none, discoveryCalls := 0 } := by
  refine ⟨⟨?_, ?_⟩, ?_⟩
  · exact ((C7_discovery_idempotence.1 emptyState (.ok []) (.ok ()) (.ok [])
      (.ok ())) (by decide)).2.1
  · exact ((C7_discovery_idempotence.1 emptyState (.ok []) (.ok ()) (.ok [])
      (.ok ())) (by decide)).2.2.2
  · exact ((C7_discovery_idempotence.2.1 emptyState (.ok ())) (by decide)).1

/-- C8: `StopDiscovery` while scanning always ends idle and issues the bus
call; a clean reply or a `org.bluez.Error.Failed` / `org.bluez.Error.NotReady`
error reply yields success, any other error is returned to the caller. -/
theorem C8_stop_discovery_lenient (a : AdapterState) (stopRes : BusResult Unit)
    (h : a.scanning = true) :
    (StopDiscovery a stopRes).state.scanning = false
    ∧ (StopDiscovery a stopRes).discoveryCalls = 1
    ∧ (stopRes = .ok () → (StopDiscovery a stopRes).result = none)
    ∧ (∀ msg, stopRes = .error (.dbusErr "org.bluez.Error.Failed" msg) →
        (StopDiscovery a stopRes).result = none)
    ∧ (∀ msg, stopRes = .error (.dbusErr "org.bluez.Error.NotReady" msg) →
        (StopDiscovery a stopRes).result = none)
    ∧ (∀ name msg, stopRes = .error (.dbusErr name msg) →
        name ≠ "org.bluez.Error.Failed" → name ≠ "org.bluez.Error.NotReady" →
        (StopDiscovery a stopRes).result
          = some (.busFailure "stopDiscovery" (.dbusErr name msg)))
    ∧ (∀ msg, stopRes = .error (.otherErr msg) →
        (StopDiscovery a stopRes).result
          = some (.busFailure "stopDiscovery" (.otherErr msg))) := by
  refine ⟨?_, ?_, ?_, ?_, ?_, ?_, ?_⟩
  · unfold StopDiscovery
    rcases stopRes with e | u
    · rcases e with ⟨name, msg⟩ | msg <;> simp [h] <;> split_ifs <;> rfl
    · simp [h]
  · unfold StopDiscovery
    rcases stopRes with e | u
    · rcases e with ⟨name, msg⟩ | msg <;> simp [h] <;> split_ifs <;> rfl
    · simp [h]
  · intro he
    subst he
    unfold StopDiscovery
    simp [h]
  · intro msg he
    subst he
    unfold StopDiscovery
    simp [h]
  · intro msg he
    subst he
    unfold StopDiscovery
    simp [h]
  · intro name msg he h1 h2
    subst he
    unfold StopDiscovery
    simp [h, h1, h2]
  · intro msg he
    subst he
    unfold StopDiscovery
    simp [h]

/-- Witness for C8 at a scanning state: a `org.bluez.Error.Failed` reply is
treated as success and the session ends idle. -/
theorem C8_stop_discovery_lenient_witness :
    (StopDiscovery { emptyState with scanning := true }
        (.error (.dbusErr "org.bluez.Error.Failed" "No discovery started"))).state.scanning
      = false
    ∧ (StopDiscovery { emptyState with scanning := true }
        (.error (.dbusErr "org.bluez.Error.Failed" "No discovery started"))).result
      = none := by
  constructor
  · exact (C8_stop_discovery_lenient { emptyState with scanning := true }
      (.error (.dbusErr "org.bluez.Error.Failed" "No discovery started"))
      (by decide)).1
  · exact (C8_stop_discovery_lenient { emptyState with scanning := true }
      (.error (.dbusErr "org.bluez.Error.Failed" "No discovery started"))
      (by decide)).2.2.2.1 "No discovery started" rfl

/-- C4: when the adapter-level `RemoveDevice` bus call succeeds and the
device is known, `Remove` deletes the registry entry within the command
itself and fires the registry-changed callback, so a subsequent
`GetDevices` no longer contains that entry; if the entry was already gone
the command still succeeds but fires no duplicate callback. -/
theorem C4_remove_synchronous (a : AdapterState) (address : String) :
    ((a.devices.lookup (getDevicePath a address)).isSome = true →
      (Remove a address (.ok ())).result = none
      ∧ (Remove a address (.ok ())).onChangeFired = true
      ∧ (Remove a address (.ok ())).state.devices
          = a.devices.erase (getDevicePath a address)
      ∧ (Remove a address (.ok ())).state.devices.lookup (getDevicePath a address)
          = none
      ∧ (∀ d, d ∈ GetDevices (Remove a address (.ok ())).state →
          ∃ q, q ≠ getDevicePath a address ∧ a.devices.lookup q = some d))
    ∧ (a.devices.lookup (getDevicePath a address) = none →
      (Remove a address (.ok ())).state = a
      ∧ (Remove a address (.ok ())).onChangeFired = false
      ∧ (Remove a address (.ok ())).result = none) := by
  have hne := getDevicePath_ne_empty a address
  constructor
  · intro hknown
    have hdev : (Remove a address (.ok ())).state.devices
        = a.devices.erase (getDevicePath a address) := by
      unfold Remove
      simp [hne, hknown]
    refine ⟨?_, ?_, hdev, ?_, ?_⟩
    · unfold Remove
      simp [hne]
    · unfold Remove
      simp [hne, hknown]
    · rw [hdev, AList.lookup_erase]
    · intro d hd
      obtain ⟨q, hq⟩ := (mem_GetDevices _ d).1 hd
      rw [hdev] at hq
      by_cases hqp : q = getDevicePath a address
      · rw [hqp, AList.lookup_erase] at hq
        exact absurd hq (by simp)
      · rw [AList.lookup_erase_ne hqp] at hq
        exact ⟨q, hqp, hq⟩
  · intro hgone
    have hnotsome : (a.devices.lookup (getDevicePath a address)).isSome = false := by
      rw [hgone]
      rfl
    refine ⟨?_, ?_, ?_⟩ <;>
      · unfold Remove
        simp [hne, hnotsome]

/-- Witness for C4: at the sample state the known device is deleted and the
callback fires; at the empty state the same command is a silent no-op. -/
theorem C4_remove_synchronous_witness :
    ((Remove sampleState sampleAddress (.ok ())).onChangeFired = true
      ∧ (Remove sampleState sampleAddress
          (.ok ())).state.devices.lookup (getDevicePath sampleState sampleAddress)
        = none)
    ∧ ((Remove emptyState sampleAddress (.ok ())).state = emptyState
      ∧ (Remove emptyState sampleAddress (.ok ())).onChangeFired = false) := by
  refine ⟨⟨?_, ?_⟩, ?_, ?_⟩
  · exact ((C4_remove_synchronous sampleState sampleAddress).1 (by decide)).2.1
  · exact ((C4_remove_synchronous sampleState sampleAddress).1 (by decide)).2.2.2.1
  · exact ((C4_remove_synchronous emptyState sampleAddress).2 (by decide)).1
  · exact ((C4_remove_synchronous emptyState sampleAddress).2 (by decide)).2.1

/-- C1 counterexample: `Connect("AA:BB:CC:DD:EE:FF")` on a state whose
registry is empty does not return the device-not-found error and does issue
bus calls (`Set Trusted` inside the trust step and the device `Connect`
call, both of which the bus answers with `UnknownObject`): the command
returns the wrapped bus error instead. -/
theorem C1_unknown_address_counterexample :
    (Connect emptyState sampleAddress
        (.error (.dbusErr "org.freedesktop.DBus.Error.UnknownObject" "unknown object"))
        (.error (.otherErr "no reply"))
        (.error (.dbusErr "org.freedesktop.DBus.Error.UnknownObject" "unknown object"))
        (.error (.otherErr "no reply"))).result
      = some (.busFailure "connect"
          (.dbusErr "org.freedesktop.DBus.Error.UnknownObject" "unknown object"))
    ∧ (Connect emptyState sampleAddress
        (.error (.dbusErr "org.freedesktop.DBus.Error.UnknownObject" "unknown object"))
        (.error (.otherErr "no reply"))
        (.error (.dbusErr "org.freedesktop.DBus.Error.UnknownObject" "unknown object"))
        (.error (.otherErr "no reply"))).result
      ≠ some (.deviceNotFound sampleAddress)
    ∧ (Connect emptyState sampleAddress
        (.error (.dbusErr "org.freedesktop.DBus.Error.UnknownObject" "unknown object"))
        (.error (.otherErr "no reply"))
        (.error (.dbusErr "org.freedesktop.DBus.Error.UnknownObject" "unknown object"))
        (.error (.otherErr "no reply"))).calls.length = 2 := by
  refine ⟨by decide, by decide, by decide⟩

/-- C1 amended: `getDevicePath` is a pure string construction that never
returns the empty string, so the device-not-found branch of every command
is dead: whatever the registry contains, Trust, Pair, Connect, Disconnect
and Remove never return `deviceNotFound` and always issue at least one bus
call. -/
theorem C1_commands_never_device_not_found (a : AdapterState) (address : String) :
    getDevicePath a address ≠ ""
    ∧ (∀ (setRes : BusResult Unit) (getAllRes : BusResult PropList),
        (Trust a address setRes getAllRes).result ≠ some (.deviceNotFound address)
        ∧ (Trust a address setRes getAllRes).calls ≠ [])
    ∧ (∀ (pairRes : BusResult Unit) (getAllRes : BusResult PropList),
        (Pair a address pairRes getAllRes).result ≠ some (.deviceNotFound address)
        ∧ (Pair a address pairRes getAllRes).calls ≠ [])
    ∧ (∀ (disconnectRes : BusResult Unit) (getAllRes : BusResult PropList),
        (Disconnect a address disconnectRes getAllRes).result
            ≠ some (.deviceNotFound address)
        ∧ (Disconnect a address disconnectRes getAllRes).calls ≠ [])
    ∧ (∀ (trustSetRes : BusResult Unit) (trustGetAllRes : BusResult PropList)
        (connectRes : BusResult Unit) (getAllRes : BusResult PropList),
        (Connect a address trustSetRes trustGetAllRes connectRes getAllRes).result
            ≠ some (.deviceNotFound address)
        ∧ (Connect a address trustSetRes trustGetAllRes connectRes getAllRes).calls
            ≠ [])
    ∧ (∀ removeRes : BusResult Unit,
        (Remove a address removeRes).result ≠ some (.deviceNotFound address)
        ∧ (Remove a address removeRes).calls ≠ []) := by
  have hne := getDevicePath_ne_empty a address
  refine ⟨hne, ?_, ?_, ?_, ?_, ?_⟩
  · intro setRes getAllRes
    unfold Trust
    rcases setRes with e | u <;> simp [hne]
  · intro pairRes getAllRes
    unfold Pair
    rcases pairRes with e | u <;> simp [hne]
  · intro disconnectRes getAllRes
    unfold Disconnect
    rcases disconnectRes with e | u <;> simp [hne]
  · intro trustSetRes trustGetAllRes connectRes getAllRes
    unfold Connect
    rcases connectRes with e | u <;> simp [hne]
  · intro removeRes
    unfold Remove
    rcases removeRes with e | u <;> simp [hne]

/-- Witness for the amended C1 at the empty registry and the sample
address. -/
theorem C1_commands_never_device_not_found_witness :
    getDevicePath emptyState sampleAddress ≠ ""
    ∧ (Trust emptyState sampleAddress (.ok ()) (.ok [])).result
        ≠ some (.deviceNotFound sampleAddress)
    ∧ (Remove emptyState sampleAddress (.ok ())).calls ≠ [] := by
  refine ⟨?_, ?_, ?_⟩
  · exact (C1_commands_never_device_not_found emptyState sampleAddress).1
  · exact ((C1_commands_never_device_not_found emptyState sampleAddress).2.1
      (.ok ()) (.ok [])).1
  · exact ((C1_commands_never_device_not_found emptyState
      sampleAddress).2.2.2.2.2 (.ok ())).2

/-- Pointer-level state holding `sampleDevice` behind address `0` at
`samplePath`. -/
def samplePtrRegistry : PtrRegistry :=
  { adapterPath := "/org/bluez/hci0",
    devices := AList.insert samplePath 0 ∅,
    heap := AList.insert 0 sampleDevice ∅,
    nextPtr := 1 }

/-- C2 counterexample: the record `GetDevices` returned for the sample
device is a live pointer, not a copy: after a subsequent `updateDevice`
merging a new name, dereferencing the previously returned record yields the
new name, so the record did not stay unchanged. -/
theorem C2_snapshot_counterexample :
    ptrGetDevices samplePtrRegistry = [0]
    ∧ derefDevice samplePtrRegistry 0 = some sampleDevice
    ∧ derefDevice
        (ptrUpdateDevice samplePtrRegistry samplePath [("Name", DBusValue.str "Other")]) 0
      = some { sampleDevice with Name := "Other" }
    ∧ derefDevice
        (ptrUpdateDevice samplePtrRegistry samplePath [("Name", DBusValue.str "Other")]) 0
      ≠ derefDevice samplePtrRegistry 0 := by
  refine ⟨by decide, by decide, by decide, by decide⟩

/-- C2 amended: `GetDevices` allocates a fresh slice but fills it with the
registry's live pointers: for any device the registry knows, the pointer is
in the returned slice and a later `updateDevice` for its path is observable
through it — dereferencing after the update yields exactly the merged
record. -/
theorem C2_get_devices_live_references (h : PtrRegistry) (path : String)
    (ptr : Nat) (props : PropList)
    (hmem : h.devices.lookup path = some ptr)
    (hpre : hasPrefixStr path (h.adapterPath ++ "/dev_") = true) :
    ptr ∈ ptrGetDevices h
    ∧ derefDevice (ptrUpdateDevice h path props) ptr
        = some (applyProps ((h.heap.lookup ptr).getD Device.zero) props) := by
  constructor
  · unfold ptrGetDevices
    have hm : ptr ∈ h.devices.lookup path := by simp [hmem]
    exact List.mem_map.2 ⟨⟨path, ptr⟩, AList.mem_lookup_iff.1 hm, rfl⟩
  · unfold ptrUpdateDevice derefDevice
    simp [hpre, hmem, AList.lookup_insert]

/-- Witness for the amended C2 at the sample pointer registry. -/
theorem C2_get_devices_live_references_witness :
    (0 : Nat) ∈ ptrGetDevices samplePtrRegistry
    ∧ derefDevice
        (ptrUpdateDevice samplePtrRegistry samplePath [("Name", DBusValue.str "Other")]) 0
      = some (applyProps ((samplePtrRegistry.heap.lookup 0).getD Device.zero)
          [("Name", DBusValue.str "Other")]) := by
  exact C2_get_devices_live_references samplePtrRegistry samplePath 0
    [("Name", DBusValue.str "Other")] (by decide) (by decide)

end BluePiCast
